import Mathlib

/-!
Verification of the safe-worker supervision mechanism of
`dakara_base/safe_workers.py` (DakaraProject/dakara-base).

The module is shallowly embedded: the shared state visible to the
supervision kernel is a pair of a stop event (the Cancellation Signal,
a `threading.Event` modelled as a `Bool`) and an errors queue (the Error
Channel, a `queue.Queue` modelled as a FIFO `List`).  A Python callable
that may raise is a function returning a `PyResult`; the `safe` decorator,
the worker context-manager exits, the `on_sigint` handler and the tail of
`Runner.run_safe` are translated as pure state transformers on this state.
Where the order of side effects matters (the `safe` wrapper's
except-clause), the transformer additionally emits the list of primitive
effects it performed, in program order.
-/

namespace DakaraBase.SafeWorkers

/-- A captured Python exception, as carried by `sys.exc_info()`: the
exception class name, its message, and its traceback.  The handler in the
`safe` decorator is `except BaseException`, so this covers every Python
failure, including `SystemExit`, `KeyboardInterrupt` and
assertion-style failures. -/
structure ExcInfo where
  excType : String
  message : String
  traceback : String
deriving DecidableEq, Repr

/-- One record of the errors queue: `none` is the clean-stop sentinel
(`self.errors.put(None)` in the SIGINT handler), `some info` is a captured
failure (`self.errors.put_nowait(sys.exc_info())`). -/
abbrev ErrorRecord := Option ExcInfo

/-- The shared mutable state of one supervision tree: the stop event
(`threading.Event`, `true` = set) and the errors queue (`queue.Queue`,
head = oldest record). -/
structure SharedState where
  stop : Bool
  errors : List ErrorRecord
deriving DecidableEq, Repr

/-- Outcome of running a Python callable: normal return of a value, or an
escaping exception. -/
inductive PyResult (α : Type) where
  | ok : α → PyResult α
  | exc : ExcInfo → PyResult α
deriving DecidableEq, Repr

/-- The return value the caller of a `PyResult`-producing callable sees
once exceptions are swallowed: `some a` on normal return, `none` (Python
`None`, the implicit return after the except clause) otherwise. -/
def PyResult.toOption {α : Type} : PyResult α → Option α
  | .ok a => some a
  | .exc _ => none

/-- The primitive shared-state effects the `safe` wrapper can perform, in
program order: `putNowait r` is `self.errors.put_nowait(...)`, `setStop`
is `self.stop.set()`. -/
inductive SafeEvent where
  | putNowait : ErrorRecord → SafeEvent
  | setStop : SafeEvent
deriving DecidableEq, Repr

def SafeEvent.isSetStop : SafeEvent → Bool
  | .setStop => true
  | _ => false

def SafeEvent.isPutNowait : SafeEvent → Bool
  | .putNowait _ => true
  | _ => false

/-- Index of the first event satisfying `p` in an effect trace. -/
def idxOf? (p : SafeEvent → Bool) : List SafeEvent → Option Nat
  | [] => none
  | e :: tr => if p e then some 0 else (idxOf? p tr).map Nat.succ

/-- Position of the `stop.set()` call in a trace. -/
def stopSetIdx (tr : List SafeEvent) : Option Nat :=
  idxOf? SafeEvent.isSetStop tr

/-- Position of the `errors.put_nowait(...)` call in a trace. -/
def putIdx (tr : List SafeEvent) : Option Nat :=
  idxOf? SafeEvent.isPutNowait tr

/-- The spec's §5 ordering property on an effect trace: the stop event is
set at a position no later than the position at which the error record is
enqueued. -/
def stopBeforeOrWithPut (tr : List SafeEvent) : Prop :=
  ∀ i j, stopSetIdx tr = some i → putIdx tr = some j → i ≤ j

instance (tr : List SafeEvent) : Decidable (stopBeforeOrWithPut tr) := by
  unfold stopBeforeOrWithPut
  cases h1 : stopSetIdx tr <;> cases h2 : putIdx tr
  · exact .isTrue (by intro i j hi; simp [h1] at hi)
  · exact .isTrue (by intro i j hi; simp [h1] at hi)
  · exact .isTrue (by intro i j _ hj; simp [h2] at hj)
  · next a b =>
    refine if hab : a ≤ b then .isTrue ?_ else .isFalse ?_
    · intro i j hi hj
      simp only [Option.some.injEq] at hi hj
      subst hi; subst hj; exact hab
    · intro h
      exact hab (h a b rfl rfl)

/-- The `AssertionError` raised by a failed `assert message` statement. -/
def assertionError (msg : String) : ExcInfo :=
  { excType := "AssertionError", message := msg, traceback := "" }

/-- What one call of a `safe`-wrapped method produces: the wrapper's own
outcome (it may itself raise, from the `assert isinstance(...)` placed
before the `try` block), the shared state afterwards, and the trace of
queue/event effects the wrapper itself performed. -/
structure SafeCallOutput (α : Type) where
  result : PyResult (Option α)
  state : SharedState
  trace : List SafeEvent
deriving DecidableEq, Repr

/-- The `safe` decorator (`safe_workers.py`, `def safe(fun)`), applied to a
body `fun` running over the shared state.  `isSafeReceiver` is the
`isinstance(self, (BaseSafeThread, BaseWorker))` check: when it fails the
`assert` raises before the `try` block, so that `AssertionError` escapes
the wrapper.  Otherwise the body runs; on normal return its value is
returned unchanged; on any `BaseException` the wrapper runs
`self.errors.put_nowait(sys.exc_info())` and then `self.stop.set()`, and
falls off the end of the function (returning Python `None`). -/
def safeCall {α : Type} (isSafeReceiver : Bool)
    (body : SharedState → PyResult α × SharedState) (s : SharedState) :
    SafeCallOutput α :=
  if isSafeReceiver then
    match body s with
    | (.ok a, s1) =>
        { result := .ok (some a), state := s1, trace := [] }
    | (.exc e, s1) =>
        { result := .ok none
          state := { stop := true, errors := s1.errors ++ [some e] }
          trace := [.putNowait (some e), .setStop] }
  else
    { result := .exc (assertionError "not a BaseSafeThread or a BaseWorker")
      state := s
      trace := [] }

/-- Observable state of a Worker instance during context-manager exit: the
shared stop event and errors queue, the liveness of its owned
thread/timer (`self.thread.is_alive()` / `self.timer.is_alive()`), and
flags recording whether the custom `exit_worker` hook, `cancel()` and
`join()` have run. -/
structure WorkerState where
  shared : SharedState
  unitAlive : Bool
  exitWorkerCalled : Bool
  cancelCalled : Bool
  joinCalled : Bool
deriving DecidableEq, Repr

/-- `BaseWorker.__exit__`: just triggers the stop event. -/
def BaseWorker.exitCtx (w : WorkerState) : WorkerState :=
  { w with shared := { w.shared with stop := true } }

/-- `Worker.__exit__`: triggers the stop event via `super().__exit__()`,
then calls the custom `exit_worker` hook.  The exception arguments Python
passes to `__exit__` are received (`excArg`) but never inspected. -/
def Worker.exitCtx (excArg : Option ExcInfo) (w : WorkerState) : WorkerState :=
  let _ := excArg
  let w1 := BaseWorker.exitCtx w
  { w1 with exitWorkerCalled := true }

/-- `WorkerSafeThread.__exit__`: triggers the stop event via
`super().__exit__()`; returns immediately if the owned thread is not
alive; otherwise calls the custom `exit_worker` hook and then
`self.thread.join()` (the join blocks until the thread terminates, so the
thread is no longer alive afterwards). -/
def WorkerSafeThread.exitCtx (excArg : Option ExcInfo) (w : WorkerState) :
    WorkerState :=
  let _ := excArg
  let w1 := BaseWorker.exitCtx w
  if ! w1.unitAlive then
    w1
  else
    let w2 := { w1 with exitWorkerCalled := true }
    { w2 with joinCalled := true, unitAlive := false }

/-- `WorkerSafeTimer.__exit__`: triggers the stop event via
`super().__exit__()`; returns immediately if the owned timer is not
alive; otherwise calls the custom `exit_worker` hook, then
`self.timer.cancel()`, then `self.timer.join()`. -/
def WorkerSafeTimer.exitCtx (excArg : Option ExcInfo) (w : WorkerState) :
    WorkerState :=
  let _ := excArg
  let w1 := BaseWorker.exitCtx w
  if ! w1.unitAlive then
    w1
  else
    let w2 := { w1 with exitWorkerCalled := true }
    let w3 := { w2 with cancelCalled := true }
    { w3 with joinCalled := true, unitAlive := false }

/-- Outcome of the tail of `Runner.run_safe`, after the worker scope has
been exited: a normal return, a re-raise of a captured worker failure, or
the `EmptyErrorsQueueError("Unknown error happened")` raised when the
errors queue yields nothing in the retrieval window. -/
inductive RunSafeResult where
  | normal
  | raised : ExcInfo → RunSafeResult
  | emptyQueueError
deriving DecidableEq, Repr

/-- `queue.Queue.get(timeout=...)` against the records that land in the
queue during the retrieval window: the head record if any record is
present, otherwise the `queue.Empty` exception once the timeout elapses.
The timeout's duration has no effect on which value is returned, only on
how long the empty case takes, so it is not a parameter here. -/
def queueGet (q : List ErrorRecord) :
    Except String (ErrorRecord × List ErrorRecord) :=
  match q with
  | [] => .error "Empty"
  | r :: rest => .ok (r, rest)

/-- `Runner.ERROR_TIMEOUT`, the bounded window (in seconds) given to the
single `self.errors.get(timeout=...)` call of `run_safe`. -/
def ERROR_TIMEOUT : Nat := 5

/-- The retrieval phase of `Runner.run_safe`, parameterized by the timeout
handed to `get`: on `queue.Empty`, raise `EmptyErrorsQueueError`; on the
`None` sentinel, return normally; on a captured `sys.exc_info()` record,
re-raise the error with its original traceback
(`error.with_traceback(traceback); raise error`). -/
def runSafeGetPhase (timeout : Nat) (q : List ErrorRecord) : RunSafeResult :=
  let _ := timeout
  match queueGet q with
  | .error _ => .emptyQueueError
  | .ok (none, _) => .normal
  | .ok (some e, _) => .raised e

/-- The tail of `Runner.run_safe` as written: the `get` uses
`timeout=self.ERROR_TIMEOUT`. -/
def runSafeFinish (q : List ErrorRecord) : RunSafeResult :=
  runSafeGetPhase ERROR_TIMEOUT q

/-- The `on_sigint` handler that `Runner.run_safe` registers for SIGINT:
`self.errors.put(None)` then `self.stop.set()`. -/
def onSigint (s : SharedState) : SharedState :=
  { s with errors := s.errors ++ [none], stop := true }

/-- The `run_safe` scenario of an externally interrupted run: the worker's
thread body runs under the `safe` guard, the operator's interrupt fires
the `on_sigint` handler, the worker scope is exited (`BaseWorker.__exit__`
sets the stop event; the worker thread has finished, so the specialized
exit returns early), and the runner retrieves one record from the errors
queue. -/
def runSafeInterrupted {α : Type}
    (body : SharedState → PyResult α × SharedState) (s : SharedState) :
    RunSafeResult × SharedState :=
  let out := safeCall true body s
  let s1 := onSigint out.state
  let s2 := { s1 with stop := true }
  (runSafeFinish s2.errors, s2)

/-- A Python runtime value handed to a constructor expecting a
`threading.Event` and a `queue.Queue`: it carries either an actual
`Event` (with its set/unset state), an actual `Queue` (with its records),
or a value of any other class. -/
inductive PyVal where
  | event : Bool → PyVal
  | pyQueue : List ErrorRecord → PyVal
  | other : String → PyVal
deriving DecidableEq, Repr

/-- `isinstance(v, Event)`. -/
def PyVal.isEvent : PyVal → Bool
  | .event _ => true
  | _ => false

/-- `isinstance(v, Queue)`. -/
def PyVal.isQueue : PyVal → Bool
  | .pyQueue _ => true
  | _ => false

/-- `BaseSafeThread.__init__` (also the constructor path of `SafeThread`
and `SafeTimer`): asserts `isinstance(stop, Event)` and then
`isinstance(errors, Queue)`; a failed assert raises `AssertionError`
immediately to the constructor's caller (`Except.error`) and never touches
the errors queue; with well-typed arguments, the instance is bound to
exactly the shared state it was given. -/
def baseSafeThreadInit : PyVal → PyVal → Except ExcInfo SharedState
  | .event b, .pyQueue q => .ok { stop := b, errors := q }
  | .event _, _ => .error (assertionError "Errors argument must be of type Queue")
  | _, _ => .error (assertionError "Stop argument must be of type Event")

/-- `BaseWorker.__init__` (the constructor path of `Worker`,
`WorkerSafeThread` and `WorkerSafeTimer`, which all delegate their first
two arguments to it via `super().__init__(stop, errors)`): asserts
`isinstance(stop, Event)` and then `isinstance(errors, Queue)`, with the
same raise-immediately semantics as `BaseSafeThread.__init__`. -/
def baseWorkerInit : PyVal → PyVal → Except ExcInfo SharedState
  | .event b, .pyQueue q => .ok { stop := b, errors := q }
  | .event _, _ => .error (assertionError "Errors attribute must be of type Queue")
  | _, _ => .error (assertionError "Stop attribute must be of type Event")

/-! ## Concrete fixtures used by witnesses and counterexamples -/

/-- A concrete captured failure. -/
def valueErrorInfo : ExcInfo :=
  { excType := "ValueError", message := "boom", traceback := "tb0" }

/-- A concrete captured `KeyboardInterrupt` (a `BaseException` that is not
an `Exception`). -/
def kbdInterruptInfo : ExcInfo :=
  { excType := "KeyboardInterrupt", message := "", traceback := "tb1" }

/-- A body that raises `valueErrorInfo` without touching the shared
state. -/
def failingBody : SharedState → PyResult Unit × SharedState :=
  fun s => (.exc valueErrorInfo, s)

/-- A body that raises `kbdInterruptInfo` without touching the shared
state. -/
def kbdInterruptBody : SharedState → PyResult Unit × SharedState :=
  fun s => (.exc kbdInterruptInfo, s)

/-- A body that returns normally without touching the shared state. -/
def quietBody : SharedState → PyResult Nat × SharedState :=
  fun s => (.ok 42, s)

/-- Fresh shared state: stop event unset, errors queue empty. -/
def initialState : SharedState := { stop := false, errors := [] }

/-- A worker about to exit whose owned unit is not alive. -/
def deadUnitWorker : WorkerState :=
  { shared := initialState
    unitAlive := false
    exitWorkerCalled := false
    cancelCalled := false
    joinCalled := false }

/-- A worker about to exit whose owned unit is still alive. -/
def aliveUnitWorker : WorkerState :=
  { shared := initialState
    unitAlive := true
    exitWorkerCalled := false
    cancelCalled := false
    joinCalled := false }

/-! ## C1 -/

/-- C1: for every body that raises a failure when run inside a
`safe`-wrapped method of a `BaseSafeThread` (the `run` of a
`SafeThread`/`SafeTimer`), the wrapper catches the failure (the wrapper
itself returns normally, so the failure never propagates out of the
unit), enqueues exactly one record carrying that failure together with
its traceback onto the errors queue, and sets the stop event. -/
theorem safe_failing_body_captured {α : Type}
    (body : SharedState → PyResult α × SharedState)
    (s s' : SharedState) (e : ExcInfo) (h : body s = (.exc e, s')) :
    (safeCall true body s).result = .ok none ∧
    (safeCall true body s).state.errors = s'.errors ++ [some e] ∧
    (safeCall true body s).state.stop = true := by
  simp [safeCall, h]

/-- Witness for C1 at a concrete failing body and fresh shared state. -/
theorem safe_failing_body_captured_witness :
    (safeCall true failingBody initialState).result = .ok none ∧
    (safeCall true failingBody initialState).state.errors =
      initialState.errors ++ [some valueErrorInfo] ∧
    (safeCall true failingBody initialState).state.stop = true :=
  safe_failing_body_captured failingBody initialState initialState
    valueErrorInfo rfl

/-! ## C7 -/

/-- C7: for every body that completes without error inside a
`safe`-wrapped method, the wrapper performs no queue or event effect of
its own (empty effect trace), leaves the shared state exactly as the body
left it — in particular the stop event stays unset if the body left it
unset and the errors queue gains no record — and passes the body's return
value through. -/
theorem safe_ok_body_untouched {α : Type}
    (body : SharedState → PyResult α × SharedState)
    (s s' : SharedState) (a : α) (h : body s = (.ok a, s')) :
    (safeCall true body s).state = s' ∧
    (safeCall true body s).state.stop = s'.stop ∧
    (safeCall true body s).state.errors = s'.errors ∧
    (safeCall true body s).trace = [] ∧
    (safeCall true body s).result = .ok (some a) := by
  simp [safeCall, h]

/-- Witness for C7 at a concrete quiet body and fresh shared state. -/
theorem safe_ok_body_untouched_witness :
    (safeCall true quietBody initialState).state = initialState ∧
    (safeCall true quietBody initialState).state.stop = initialState.stop ∧
    (safeCall true quietBody initialState).state.errors =
      initialState.errors ∧
    (safeCall true quietBody initialState).trace = [] ∧
    (safeCall true quietBody initialState).result = .ok (some 42) :=
  safe_ok_body_untouched quietBody initialState initialState 42 rfl

/-! ## C10 -/

/-- C10: a `safe`-wrapped call never lets any `BaseException` escape: its
own outcome is always a normal return, whose value is the body's value
unchanged on success and Python `None` (`Option.none`) when the body
raised — the handler is `except BaseException`, so this covers
`SystemExit` and `KeyboardInterrupt` too; and whenever the body raised,
the captured record is appended to the errors queue like any other
failure. -/
theorem safe_swallow_spec {α : Type}
    (body : SharedState → PyResult α × SharedState) (s : SharedState) :
    (safeCall true body s).result = .ok ((body s).1.toOption) ∧
    (safeCall true body s).state.errors =
      (match (body s).1 with
       | .ok _ => ((body s).2).errors
       | .exc e => ((body s).2).errors ++ [some e]) := by
  rcases h : body s with ⟨r, s1⟩
  cases r <;> simp [safeCall, h, PyResult.toOption]

/-- Witness for C10: a body raising `KeyboardInterrupt` yields a `None`
return and a captured record, with no escaping exception. -/
theorem safe_swallow_spec_witness :
    (safeCall true kbdInterruptBody initialState).result =
      .ok ((kbdInterruptBody initialState).1.toOption) ∧
    (safeCall true kbdInterruptBody initialState).state.errors =
      (match (kbdInterruptBody initialState).1 with
       | .ok _ => ((kbdInterruptBody initialState).2).errors
       | .exc e => ((kbdInterruptBody initialState).2).errors ++ [some e]) :=
  safe_swallow_spec kbdInterruptBody initialState

/-! ## C3

The claim states the stop event is set *no later than* the record is
enqueued.  In the source the except-clause of `safe` runs
`self.errors.put_nowait(sys.exc_info())` first and `self.stop.set()`
second, so the signal is set strictly *after* the enqueue. -/

/-- C3 counterexample: for the concrete failing body, the `safe` wrapper's
effect trace sets the stop event strictly after enqueueing the record,
refuting the claimed ordering (set before or simultaneously with the
enqueue). -/
theorem safe_signal_order_counterexample :
    ¬ stopBeforeOrWithPut (safeCall true failingBody initialState).trace := by
  intro h
  have h10 := h 1 0 rfl rfl
  omega

/-- C3 amended: for every failing body, the `safe` wrapper enqueues the
record onto the errors queue strictly before setting the stop event (the
enqueue is effect 0 of the capture sequence, the signal set is
effect 1). -/
theorem safe_put_strictly_before_set {α : Type}
    (body : SharedState → PyResult α × SharedState)
    (s s' : SharedState) (e : ExcInfo) (h : body s = (.exc e, s')) :
    putIdx (safeCall true body s).trace = some 0 ∧
    stopSetIdx (safeCall true body s).trace = some 1 := by
  simp [safeCall, h, putIdx, stopSetIdx, idxOf?, SafeEvent.isPutNowait,
    SafeEvent.isSetStop]

/-- Witness for the amended C3 at a concrete failing body. -/
theorem safe_put_strictly_before_set_witness :
    putIdx (safeCall true failingBody initialState).trace = some 0 ∧
    stopSetIdx (safeCall true failingBody initialState).trace = some 1 :=
  safe_put_strictly_before_set failingBody initialState initialState
    valueErrorInfo rfl

/-! ## C2

The claim states every scope exit both sets the stop event and calls the
`exit_worker` hook, regardless of the state of any owned unit.  In the
source, `WorkerSafeThread.__exit__` and `WorkerSafeTimer.__exit__` return
early — before calling `exit_worker` — when the owned unit is not alive,
so the hook is skipped in that case. -/

/-- C2 counterexample: exiting a `WorkerSafeThread` whose owned thread is
not alive sets the stop event but does not call the `exit_worker` hook,
refuting the claim that scope exit always does both. -/
theorem worker_exit_hook_counterexample :
    ¬ ((WorkerSafeThread.exitCtx none deadUnitWorker).shared.stop = true ∧
       (WorkerSafeThread.exitCtx none deadUnitWorker).exitWorkerCalled =
         true) := by
  decide

/-- C2 amended: every scope exit sets the stop event unconditionally,
whether the scope body completed normally or raised (the exception
argument is arbitrary); the plain `Worker` always also calls the
`exit_worker` hook, while `WorkerSafeThread` and `WorkerSafeTimer` call
it exactly when their owned unit is alive at exit, returning early
without it otherwise. -/
theorem worker_exit_amended (excArg : Option ExcInfo) (w : WorkerState)
    (h : w.exitWorkerCalled = false) :
    (Worker.exitCtx excArg w).shared.stop = true ∧
    (Worker.exitCtx excArg w).exitWorkerCalled = true ∧
    (WorkerSafeThread.exitCtx excArg w).shared.stop = true ∧
    (WorkerSafeThread.exitCtx excArg w).exitWorkerCalled = w.unitAlive ∧
    (WorkerSafeTimer.exitCtx excArg w).shared.stop = true ∧
    (WorkerSafeTimer.exitCtx excArg w).exitWorkerCalled = w.unitAlive := by
  cases hu : w.unitAlive <;>
    simp [Worker.exitCtx, WorkerSafeThread.exitCtx, WorkerSafeTimer.exitCtx,
      BaseWorker.exitCtx, h, hu]

/-- Witness for the amended C2 at a worker with a live owned unit. -/
theorem worker_exit_amended_witness :
    (Worker.exitCtx none aliveUnitWorker).shared.stop = true ∧
    (Worker.exitCtx none aliveUnitWorker).exitWorkerCalled = true ∧
    (WorkerSafeThread.exitCtx none aliveUnitWorker).shared.stop = true ∧
    (WorkerSafeThread.exitCtx none aliveUnitWorker).exitWorkerCalled =
      aliveUnitWorker.unitAlive ∧
    (WorkerSafeTimer.exitCtx none aliveUnitWorker).shared.stop = true ∧
    (WorkerSafeTimer.exitCtx none aliveUnitWorker).exitWorkerCalled =
      aliveUnitWorker.unitAlive :=
  worker_exit_amended none aliveUnitWorker rfl

/-! ## C9 -/

/-- C9: exiting a `WorkerSafeThread` or `WorkerSafeTimer` whose owned
unit is not alive (never started, or already finished) performs no join
and no cancel — the whole exit reduces to `BaseWorker.__exit__`, which
only sets the stop event — and, being a total function that returns
early, neither blocks nor raises. -/
theorem specialized_exit_dead_unit_noop (excArg : Option ExcInfo)
    (w : WorkerState) (h : w.unitAlive = false) :
    WorkerSafeThread.exitCtx excArg w = BaseWorker.exitCtx w ∧
    WorkerSafeTimer.exitCtx excArg w = BaseWorker.exitCtx w ∧
    (WorkerSafeThread.exitCtx excArg w).joinCalled = w.joinCalled ∧
    (WorkerSafeThread.exitCtx excArg w).cancelCalled = w.cancelCalled ∧
    (WorkerSafeTimer.exitCtx excArg w).joinCalled = w.joinCalled ∧
    (WorkerSafeTimer.exitCtx excArg w).cancelCalled = w.cancelCalled := by
  simp [WorkerSafeThread.exitCtx, WorkerSafeTimer.exitCtx,
    BaseWorker.exitCtx, h]

/-- Witness for C9 at a worker whose owned unit is not alive. -/
theorem specialized_exit_dead_unit_noop_witness :
    WorkerSafeThread.exitCtx none deadUnitWorker =
      BaseWorker.exitCtx deadUnitWorker ∧
    WorkerSafeTimer.exitCtx none deadUnitWorker =
      BaseWorker.exitCtx deadUnitWorker ∧
    (WorkerSafeThread.exitCtx none deadUnitWorker).joinCalled =
      deadUnitWorker.joinCalled ∧
    (WorkerSafeThread.exitCtx none deadUnitWorker).cancelCalled =
      deadUnitWorker.cancelCalled ∧
    (WorkerSafeTimer.exitCtx none deadUnitWorker).joinCalled =
      deadUnitWorker.joinCalled ∧
    (WorkerSafeTimer.exitCtx none deadUnitWorker).cancelCalled =
      deadUnitWorker.cancelCalled :=
  specialized_exit_dead_unit_noop none deadUnitWorker rfl

/-! ## C4 -/

/-- C4: in the retrieval phase of `Runner.run_safe`, a retrieved record
that is the clean-stop sentinel (`None`) makes `run_safe` return normally
without raising, and any other retrieved record makes it re-raise the
captured failure — the very record taken from the queue, whose `ExcInfo`
still carries its original traceback
(`error.with_traceback(traceback); raise error`). -/
theorem run_safe_sentinel_vs_failure (q : List ErrorRecord) (e : ExcInfo) :
    runSafeFinish (none :: q) = RunSafeResult.normal ∧
    runSafeFinish (some e :: q) = RunSafeResult.raised e := by
  simp [runSafeFinish, runSafeGetPhase, queueGet]

/-! ## C5 -/

/-- C5: the single retrieval of `Runner.run_safe` uses the bounded
timeout `ERROR_TIMEOUT = 5`; when the errors queue yields nothing within
that window (`queue.Empty`), `run_safe` raises `EmptyErrorsQueueError` —
an outcome distinct both from the clean-stop normal return and from every
worker-failure re-raise — rather than hanging or returning normally. -/
theorem run_safe_empty_queue_distinct_error :
    ERROR_TIMEOUT = 5 ∧
    (∀ q, runSafeFinish q = runSafeGetPhase ERROR_TIMEOUT q) ∧
    runSafeFinish [] = RunSafeResult.emptyQueueError ∧
    RunSafeResult.emptyQueueError ≠ RunSafeResult.normal ∧
    (∀ e, RunSafeResult.emptyQueueError ≠ RunSafeResult.raised e) := by
  refine ⟨rfl, fun q => rfl, rfl, by simp, fun e => by simp⟩

/-! ## C6 -/

/-- C6: the `on_sigint` handler installed by `Runner.run_safe` pushes the
clean-stop sentinel (`None`) onto the errors queue and sets the stop
event; consequently a `run_safe` whose worker body completes without
error and without enqueueing anything, interrupted externally, returns
normally (no re-raise) and leaves the stop event set. -/
theorem run_safe_interrupted_clean {α : Type}
    (body : SharedState → PyResult α × SharedState)
    (s s' : SharedState) (a : α)
    (hbody : body s = (.ok a, s')) (herr : s'.errors = []) :
    (onSigint s').errors = s'.errors ++ [none] ∧
    (onSigint s').stop = true ∧
    (runSafeInterrupted body s).1 = RunSafeResult.normal ∧
    (runSafeInterrupted body s).2.stop = true := by
  refine ⟨rfl, rfl, ?_, ?_⟩ <;>
    simp [runSafeInterrupted, safeCall, hbody, onSigint, herr,
      runSafeFinish, runSafeGetPhase, queueGet]

/-- Witness for C6 at a concrete quiet body and fresh shared state. -/
theorem run_safe_interrupted_clean_witness :
    (onSigint initialState).errors = initialState.errors ++ [none] ∧
    (onSigint initialState).stop = true ∧
    (runSafeInterrupted quietBody initialState).1 =
      RunSafeResult.normal ∧
    (runSafeInterrupted quietBody initialState).2.stop = true :=
  run_safe_interrupted_clean quietBody initialState initialState 42 rfl rfl

/-! ## C8 -/

/-- C8: handing `BaseSafeThread.__init__` or `BaseWorker.__init__` (the
construction path of every Worker, specialized Worker, `SafeThread` and
`SafeTimer`) a first argument that is not an `Event` or a second argument
that is not a `Queue` raises an `AssertionError` immediately to the
constructor's caller — it is never captured into the errors queue, which
the failed construction leaves untouched — while with an `Event` and a
`Queue` both constructors succeed and bind exactly the shared state they
were given. -/
theorem construction_type_check (stopArg errorsArg : PyVal)
    (hbad : stopArg.isEvent = false ∨ errorsArg.isQueue = false) :
    (∃ e, baseSafeThreadInit stopArg errorsArg = Except.error e ∧
      e.excType = "AssertionError") ∧
    (∃ e, baseWorkerInit stopArg errorsArg = Except.error e ∧
      e.excType = "AssertionError") ∧
    (∀ b q, baseSafeThreadInit (PyVal.event b) (PyVal.pyQueue q) =
        Except.ok { stop := b, errors := q } ∧
      baseWorkerInit (PyVal.event b) (PyVal.pyQueue q) =
        Except.ok { stop := b, errors := q }) := by
  refine ⟨?_, ?_, fun b q => ⟨rfl, rfl⟩⟩ <;>
    cases stopArg <;> cases errorsArg <;>
      simp_all [PyVal.isEvent, PyVal.isQueue, baseSafeThreadInit,
        baseWorkerInit, assertionError]

/-- Witness for C8 at a concrete wrong-typed first argument. -/
theorem construction_type_check_witness :
    (∃ e, baseSafeThreadInit (PyVal.other "object") (PyVal.pyQueue []) =
      Except.error e ∧ e.excType = "AssertionError") ∧
    (∃ e, baseWorkerInit (PyVal.other "object") (PyVal.pyQueue []) =
      Except.error e ∧ e.excType = "AssertionError") ∧
    (∀ b q, baseSafeThreadInit (PyVal.event b) (PyVal.pyQueue q) =
        Except.ok { stop := b, errors := q } ∧
      baseWorkerInit (PyVal.event b) (PyVal.pyQueue q) =
        Except.ok { stop := b, errors := q }) :=
  construction_type_check (PyVal.other "object") (PyVal.pyQueue [])
    (Or.inl rfl)

end DakaraBase.SafeWorkers
